import Mathlib

/-!
Shallow embedding of the `winmutex` package (a Windows named-mutex wrapper)
and its `lockedthread` executor, with theorems checking the specification's
claims against the code.

Modelling conventions:
- Go `error` values are `Option GoErr` (`none` = nil).
- Go panics surface as `Except GoPanic α`.
- Native syscall outcomes (`CreateMutexW`, `WaitForSingleObject`,
  `ReleaseMutex`, `CloseHandle`, `OpenMutexW`) are oracle inputs passed to
  the embedded functions, so every theorem quantifies over what the OS may
  report.
-/

namespace WinObj

/-- Go error values: a raw Windows errno, a plain message (e.g. from
`fmt.Errorf` without wrapping), or a wrapping error (`fmt.Errorf` with `%w`). -/
inductive GoErr where
  | errno (n : Nat)
  | msg (s : String)
  | wrap (s : String) (e : GoErr)
deriving DecidableEq, Repr

/-- A Go panic: either a plain string value or an error value. -/
inductive GoPanic where
  | str (s : String)
  | err (e : GoErr)
deriving DecidableEq, Repr

/-- Model of `errors.Join`: nil when every argument is nil, otherwise an
aggregate holding the non-nil arguments in order. -/
def errorsJoin (es : List (Option GoErr)) : Option (List GoErr) :=
  match es.filterMap id with
  | [] => none
  | l => some l

/-- Constant `synchapi.WaitAbandoned` (WAIT_ABANDONED). -/
def WaitAbandoned : Nat := 0x00000080

/-- Constant `synchapi.WaitTimeout` (WAIT_TIMEOUT). -/
def WaitTimeout : Nat := 0x00000102

/-- The possible outcomes of the native `WaitForSingleObject` call. -/
inductive WaitOutcome where
  | signaled
  | abandoned
  | timedout
  | failed (e : Nat)
deriving DecidableEq, Repr

/-- The Go standard-library wrapper `syscall.WaitForSingleObject` returns the
raw event code, and a non-nil error exactly when the event is WAIT_FAILED
(0xffffffff): signaled ↦ (0, nil), abandoned ↦ (0x80, nil),
timed out ↦ (0x102, nil), failed ↦ (0xffffffff, errno). -/
def waitForSingleObject : WaitOutcome → Nat × Option GoErr
  | .signaled => (0x00000000, none)
  | .abandoned => (WaitAbandoned, none)
  | .timedout => (WaitTimeout, none)
  | .failed e => (0xffffffff, some (.errno e))

/-- Model of `lockedthread.Thread`: `cmdsOpen` models `cmds != nil` (the thread has
not been closed). -/
structure Thread where
  cmdsOpen : Bool
deriving DecidableEq, Repr

/-- Model of `lockedthread.New`: returns an open thread. -/
def Thread.new : Thread := { cmdsOpen := true }

/-- The panic message raised by `Thread.Run` on a closed thread. -/
def threadRunClosedMsg : String :=
  "lockedthread: Thread.Run() was called on a thread that has been closed"

/-- The embedding of `Thread.Run` only checks for closure before executing the submitted
function; the function's effects are modelled at each call site. This is the
closure check: `true` means `Run` proceeds, `false` means it panics. -/
def Thread.runOk (t : Thread) : Bool := t.cmdsOpen

/-- Model of `Thread.Close`: if already closed, returns nil and changes nothing;
otherwise closes the command channel and returns nil. -/
def Thread.close (t : Thread) : Thread × Option GoErr :=
  if t.cmdsOpen then ({ cmdsOpen := false }, none) else (t, none)

/-- Model of `winmutex.Mutex`: name, executor thread pointer (`none` = nil), native
handle (0 = zeroed), and the locked flag. -/
structure Mutex where
  name : String
  thread : Option Thread
  handle : Nat
  locked : Bool
deriving DecidableEq, Repr

/-- Model of `mutexDescription`. -/
def mutexDescription (name : String) : String :=
  if name = "" then "an unnamed windows mutex"
  else "the windows mutex named \"" ++ name ++ "\""

/-- Model of `mutexWaitError`. -/
def mutexWaitError (name : String) (e : GoErr) : GoErr :=
  .wrap ("winmutex: failed to wait for " ++ mutexDescription name) e

/-- Outcome of the native `synchapi.CreateMutex` call, as seen by `New`:
the returned handle, the already-existed flag, and the error. -/
structure CreateResult where
  handle : Nat
  openedExisting : Bool
  err : Option GoErr
deriving DecidableEq, Repr

/-- Outcome of the native `synchapi.ReleaseMutex` call: the released flag
and the error. -/
structure ReleaseResult where
  released : Bool
  err : Option GoErr
deriving DecidableEq, Repr

/-- Result of `winmutex.New`: the returned mutex pointer, the returned
error, and the state of the executor thread allocated during the call
(so resource release on the failure path is observable). -/
structure NewResult where
  mutex : Option Mutex
  err : Option GoErr
  threadAfter : Thread
deriving DecidableEq, Repr

/-- Model of `winmutex.New`: allocates a locked thread, runs `CreateMutex` on it,
closes the thread and reports a wrapped error on failure, and otherwise
returns the mutex wrapping the thread and handle, unlocked. -/
def New (name : String) (cr : CreateResult) : NewResult :=
  let t := Thread.new
  match cr.err with
  | some e =>
    let t2 := (t.close).1
    { mutex := none
      err := some (.wrap ("winmutex: failed to create " ++ mutexDescription name) e)
      threadAfter := t2 }
  | none =>
    { mutex := some { name := name, thread := some t, handle := cr.handle, locked := false }
      err := none
      threadAfter := t }

/-- Model of `Mutex.Name`. -/
def Mutex.Name (m : Mutex) : String := m.name

/-- Model of `Mutex.Lock`: panics if the thread is nil (closed mutex); runs an
infinite wait on the executor; panics on a non-nil wait error; otherwise
sets `locked` and returns. -/
def Mutex.Lock (m : Mutex) (w : WaitOutcome) : Except GoPanic Mutex :=
  match m.thread with
  | none => .error (.str "winmutex: Mutex.Lock() called on a mutex that has been closed")
  | some t =>
    if t.runOk then
      match (waitForSingleObject w).2 with
      | some e => .error (.err (mutexWaitError m.name e))
      | none => .ok { m with locked := true }
    else .error (.str threadRunClosedMsg)

/-- Model of `Mutex.TryLock`: panics if the thread is nil; runs a zero wait on the
executor; panics on a non-nil wait error; returns `false` with no state
change on WAIT_TIMEOUT; otherwise sets `locked` and returns `true`. -/
def Mutex.TryLock (m : Mutex) (w : WaitOutcome) : Except GoPanic (Bool × Mutex) :=
  match m.thread with
  | none => .error (.str "winmutex: Mutex.TryLock() called on a mutex that has been closed")
  | some t =>
    if t.runOk then
      match waitForSingleObject w with
      | (_, some e) => .error (.err (mutexWaitError m.name e))
      | (event, none) =>
        if event = WaitTimeout then .ok (false, m)
        else .ok (true, { m with locked := true })
    else .error (.str threadRunClosedMsg)

/-- Model of `Mutex.Unlock`: panics if not locked; runs `ReleaseMutex` on the
executor (a nil thread here would be a nil-pointer dereference panic);
panics on a release error or on `released = false`; otherwise clears
`locked` and returns. -/
def Mutex.Unlock (m : Mutex) (r : ReleaseResult) : Except GoPanic Mutex :=
  if m.locked then
    match m.thread with
    | none => .error (.str "runtime error: invalid memory address or nil pointer dereference")
    | some t =>
      if t.runOk then
        match r.err with
        | some e => .error (.err (.wrap "winmutex: Mutex.Unlock()" e))
        | none =>
          if r.released then .ok { m with locked := false }
          else .error (.str "winmutex: Mutex.Unlock() called on a mutex that was not locked, but was expected to be")
      else .error (.str threadRunClosedMsg)
  else .error (.str "winmutex: Mutex.Unlock() called on a mutex that is not locked")

/-- The native calls `Mutex.Close` performs, in order. -/
inductive NativeCall where
  | releaseMutex (h : Nat)
  | closeHandle (h : Nat)
  | threadClose
deriving DecidableEq, Repr

/-- Model of `Mutex.Close`: if the thread is nil, joins three nil errors (a no-op);
otherwise, while the handle is nonzero, runs on the executor a release
(only when locked) followed by a handle close, zeroes the handle, clears
`locked`, then closes and clears the thread; returns the joined errors
together with the updated state and the trace of native calls made.
`rel` is the oracle outcome of the release (consulted only when a release
happens) and `chErr` the oracle outcome of `CloseHandle`. -/
def Mutex.Close (m : Mutex) (rel : ReleaseResult) (chErr : Option GoErr) :
    Except GoPanic (Option (List GoErr) × Mutex × List NativeCall) :=
  match m.thread with
  | none => .ok (errorsJoin [none, none, none], m, [])
  | some t =>
    if m.handle ≠ 0 then
      if t.runOk then
        let err1 : Option GoErr := if m.locked then rel.err else none
        let err2 : Option GoErr := chErr
        let err3 : Option GoErr := (t.close).2
        .ok (errorsJoin [err1, err2, err3],
          { m with handle := 0, locked := false, thread := none },
          (if m.locked then [NativeCall.releaseMutex m.handle] else []) ++
            [NativeCall.closeHandle m.handle, NativeCall.threadClose])
      else .error (.str threadRunClosedMsg)
    else
      let err3 : Option GoErr := (t.close).2
      .ok (errorsJoin [none, none, err3], { m with thread := none }, [NativeCall.threadClose])

/-- Constant `syscall.ERROR_FILE_NOT_FOUND`. -/
def ERROR_FILE_NOT_FOUND : Nat := 2

/-- Result of `winmutex.Exists`: the boolean, the error, and the handle
closed by the deferred `CloseHandle`, if any. -/
structure ExistsOut where
  found : Bool
  err : Option GoErr
  closed : Option Nat
deriving DecidableEq, Repr

/-- Outcome of the native `synchapi.OpenMutex` call: the handle and error. -/
structure OpenResult where
  handle : Nat
  err : Option GoErr
deriving DecidableEq, Repr

/-- Model of `winmutex.Exists`: opens the named mutex; on error, returns
`(false, nil)` when the error is the errno ERROR_FILE_NOT_FOUND and
`(false, err)` otherwise; on success closes the opened handle and returns
`(true, nil)`. -/
def Exists (res : OpenResult) : ExistsOut :=
  match res.err with
  | some e =>
    match e with
    | .errno n =>
      if n = ERROR_FILE_NOT_FOUND then { found := false, err := none, closed := none }
      else { found := false, err := some e, closed := none }
    | _ => { found := false, err := some e, closed := none }
  | none => { found := true, err := none, closed := some res.handle }

/-- The state invariant of claim C9, as a boolean predicate: `locked`
implies a present thread and nonzero handle, and the thread and the handle
are either both valid (thread present and open, handle nonzero) or both
torn down (thread nil, handle zero). -/
def Mutex.inv (m : Mutex) : Bool :=
  (!m.locked || ((m.thread.isSome) && (m.handle != 0))) &&
  (match m.thread with
   | some t => t.cmdsOpen && (m.handle != 0)
   | none => m.handle == 0)

/-! ## Helper lemmas -/

/-- Any successful `Close` leaves `thread = none` in the resulting state. -/
theorem close_ok_thread_none (m m' : Mutex) (rel : ReleaseResult) (chErr : Option GoErr)
    (errs : Option (List GoErr)) (tr : List NativeCall)
    (h : Mutex.Close m rel chErr = .ok (errs, m', tr)) : m'.thread = none := by
  unfold Mutex.Close at h
  split at h
  · next hm =>
    cases h
    exact hm
  · next t hm =>
    split at h
    · split at h
      · cases h
        rfl
      · cases h
    · cases h
      rfl

/-! ## Claim theorems -/

/-- C1, counterexample: on an open mutex, a wait that reports the
"abandoned" outcome makes `Lock` return normally with `locked = true`
(and `TryLock` return `true` with `locked = true`), rather than halting:
the claim that any non-signaled, non-timed-out outcome is fatal is false. -/
theorem c1_counterexample :
    Mutex.Lock { name := "", thread := some { cmdsOpen := true }, handle := 1, locked := false }
        WaitOutcome.abandoned
      = .ok { name := "", thread := some { cmdsOpen := true }, handle := 1, locked := true } ∧
    Mutex.TryLock { name := "", thread := some { cmdsOpen := true }, handle := 1, locked := false }
        WaitOutcome.abandoned
      = .ok (true, { name := "", thread := some { cmdsOpen := true }, handle := 1, locked := true }) := by
  exact ⟨rfl, rfl⟩

/-- C1, amended: on an open mutex, `Lock` and `TryLock` treat a wait
*failure* (WAIT_FAILED, surfaced by the wrapper as a non-nil error) as a
fatal fault and never return normally on it; the "abandoned" outcome is
surfaced with a nil error and both operations treat it as a successful
acquisition, setting `locked = true` and returning normally; `Lock` on
"signaled" acquires, and `TryLock` on "timed out" returns `false` with no
state change. -/
theorem c1_amended (m : Mutex) (t : Thread) (e : Nat)
    (ht : m.thread = some t) (hopen : t.cmdsOpen = true) :
    Mutex.Lock m (.failed e) = .error (.err (mutexWaitError m.name (.errno e))) ∧
    Mutex.TryLock m (.failed e) = .error (.err (mutexWaitError m.name (.errno e))) ∧
    Mutex.Lock m .abandoned = .ok { m with locked := true } ∧
    Mutex.TryLock m .abandoned = .ok (true, { m with locked := true }) ∧
    Mutex.Lock m .signaled = .ok { m with locked := true } ∧
    Mutex.TryLock m .timedout = .ok (false, m) := by
  unfold Mutex.Lock Mutex.TryLock
  rw [ht]
  simp [Thread.runOk, hopen, waitForSingleObject, WaitAbandoned, WaitTimeout]

/-- C1 witness for the amended theorem. -/
theorem c1_amended_witness :
    Mutex.Lock { name := "w", thread := some { cmdsOpen := true }, handle := 2, locked := false }
        (.failed 6)
      = .error (.err (mutexWaitError "w" (.errno 6))) :=
  (c1_amended { name := "w", thread := some { cmdsOpen := true }, handle := 2, locked := false }
    { cmdsOpen := true } 6 rfl rfl).1

/-- C2: when the native create-or-open call fails, `New` returns a nil
mutex and a non-nil (wrapped) error, and the executor thread it allocated
during the call has been closed by the time the call returns, so neither a
thread nor a handle remains allocated. -/
theorem c2_new_failure (name : String) (cr : CreateResult) (e : GoErr)
    (h : cr.err = some e) :
    (New name cr).mutex = none ∧
    (New name cr).err =
      some (.wrap ("winmutex: failed to create " ++ mutexDescription name) e) ∧
    (New name cr).threadAfter.cmdsOpen = false := by
  unfold New
  rw [h]
  exact ⟨rfl, rfl, rfl⟩

/-- C2 witness. -/
theorem c2_new_failure_witness :
    (New "x" { handle := 0, openedExisting := false, err := some (.errno 5) }).mutex = none ∧
    (New "x" { handle := 0, openedExisting := false, err := some (.errno 5) }).err =
      some (.wrap ("winmutex: failed to create " ++ mutexDescription "x") (.errno 5)) ∧
    (New "x" { handle := 0, openedExisting := false, err := some (.errno 5) }).threadAfter.cmdsOpen
      = false :=
  c2_new_failure "x" { handle := 0, openedExisting := false, err := some (.errno 5) }
    (.errno 5) rfl

/-- C3: after any completed `Close`, every subsequent `Lock`, `TryLock`,
or `Unlock` call panics (returns an error in the panic monad); none
returns normally. -/
theorem c3_post_close_fault (m m' : Mutex) (rel : ReleaseResult) (chErr : Option GoErr)
    (errs : Option (List GoErr)) (tr : List NativeCall)
    (h : Mutex.Close m rel chErr = .ok (errs, m', tr))
    (w : WaitOutcome) (r : ReleaseResult) :
    (∃ p, Mutex.Lock m' w = .error p) ∧
    (∃ p, Mutex.TryLock m' w = .error p) ∧
    (∃ p, Mutex.Unlock m' r = .error p) := by
  have hth : m'.thread = none := close_ok_thread_none m m' rel chErr errs tr h
  refine ⟨?_, ?_, ?_⟩
  · unfold Mutex.Lock
    rw [hth]
    exact ⟨_, rfl⟩
  · unfold Mutex.TryLock
    rw [hth]
    exact ⟨_, rfl⟩
  · unfold Mutex.Unlock
    cases hl : m'.locked with
    | true =>
      rw [hth]
      simp
    | false =>
      simp

/-- C3 witness. -/
theorem c3_post_close_fault_witness :
    (∃ p, Mutex.Lock { name := "", thread := none, handle := 0, locked := false }
        WaitOutcome.signaled = .error p) ∧
    (∃ p, Mutex.TryLock { name := "", thread := none, handle := 0, locked := false }
        WaitOutcome.signaled = .error p) ∧
    (∃ p, Mutex.Unlock { name := "", thread := none, handle := 0, locked := false }
        { released := true, err := none } = .error p) :=
  c3_post_close_fault
    { name := "", thread := some { cmdsOpen := true }, handle := 1, locked := false }
    { name := "", thread := none, handle := 0, locked := false }
    { released := true, err := none } none none
    [NativeCall.closeHandle 1, NativeCall.threadClose] rfl
    WaitOutcome.signaled { released := true, err := none }

/-- C4: the first `Close` on an open mutex performs, in order, a native
release (exactly when `locked` is true), a handle close, and the executor
shutdown; it returns the join of the errors of those three steps (the
executor shutdown never errors), and the resulting state has
`locked = false`, `handle = 0`, and a cleared executor reference
regardless of those errors. -/
theorem c4_close_first (m : Mutex) (t : Thread) (rel : ReleaseResult) (chErr : Option GoErr)
    (ht : m.thread = some t) (hopen : t.cmdsOpen = true) (hh : m.handle ≠ 0) :
    Mutex.Close m rel chErr =
      .ok (errorsJoin [if m.locked then rel.err else none, chErr, none],
        { m with handle := 0, locked := false, thread := none },
        (if m.locked then [NativeCall.releaseMutex m.handle] else []) ++
          [NativeCall.closeHandle m.handle, NativeCall.threadClose]) := by
  unfold Mutex.Close
  rw [ht]
  simp [hh, Thread.runOk, hopen, Thread.close]

/-- C4 witness. -/
theorem c4_close_first_witness :
    Mutex.Close { name := "a", thread := some { cmdsOpen := true }, handle := 7, locked := true }
        { released := true, err := some (.errno 9) } (some (.errno 4)) =
      .ok (errorsJoin [if true then some (.errno 9) else none, some (.errno 4), none],
        { name := "a", thread := none, handle := 0, locked := false },
        (if true then [NativeCall.releaseMutex 7] else []) ++
          [NativeCall.closeHandle 7, NativeCall.threadClose]) :=
  c4_close_first { name := "a", thread := some { cmdsOpen := true }, handle := 7, locked := true }
    { cmdsOpen := true } { released := true, err := some (.errno 9) } (some (.errno 4))
    rfl rfl (by decide)

/-- C5: `Close` is idempotent: any `Close` after a completed one returns a
nil error, leaves the state exactly as it was, and performs no native call
(no second release, handle close, or executor shutdown); likewise
`Thread.Close` on an already-closed thread returns nil and changes
nothing. -/
theorem c5_close_idempotent (m m' : Mutex) (rel rel' : ReleaseResult)
    (chErr chErr' : Option GoErr) (errs : Option (List GoErr)) (tr : List NativeCall)
    (h : Mutex.Close m rel chErr = .ok (errs, m', tr)) :
    Mutex.Close m' rel' chErr' = .ok (none, m', []) ∧
    (∀ t : Thread, t.cmdsOpen = false → t.close = (t, none)) := by
  have hth : m'.thread = none := close_ok_thread_none m m' rel chErr errs tr h
  constructor
  · unfold Mutex.Close
    rw [hth]
    rfl
  · intro t htc
    unfold Thread.close
    rw [htc]
    simp

/-- C5 witness. -/
theorem c5_close_idempotent_witness :
    Mutex.Close { name := "", thread := none, handle := 0, locked := false }
        { released := false, err := none } none
      = .ok (none, { name := "", thread := none, handle := 0, locked := false }, []) ∧
    (∀ t : Thread, t.cmdsOpen = false → t.close = (t, none)) :=
  c5_close_idempotent
    { name := "", thread := some { cmdsOpen := true }, handle := 3, locked := false }
    { name := "", thread := none, handle := 0, locked := false }
    { released := false, err := none } { released := false, err := none }
    none none none [NativeCall.closeHandle 3, NativeCall.threadClose] rfl

/-- C6: `Unlock` panics when `locked` is false on entry; on a locked, open
mutex it panics when the native release reports an error, and when the
release reports success but `released = false`; it returns normally exactly
when the release succeeds with `released = true`, and then the only state
change is `locked = false`. -/
theorem c6_unlock (m : Mutex) (t : Thread) (r : ReleaseResult)
    (ht : m.thread = some t) (hopen : t.cmdsOpen = true) :
    (m.locked = false →
      Mutex.Unlock m r =
        .error (.str "winmutex: Mutex.Unlock() called on a mutex that is not locked")) ∧
    (m.locked = true → ∀ e, r.err = some e →
      Mutex.Unlock m r = .error (.err (.wrap "winmutex: Mutex.Unlock()" e))) ∧
    (m.locked = true → r.err = none → r.released = false →
      Mutex.Unlock m r =
        .error (.str
          "winmutex: Mutex.Unlock() called on a mutex that was not locked, but was expected to be")) ∧
    (m.locked = true → r.err = none → r.released = true →
      Mutex.Unlock m r = .ok { m with locked := false }) ∧
    (∀ m₂, Mutex.Unlock m r = .ok m₂ →
      m.locked = true ∧ r.err = none ∧ r.released = true ∧ m₂ = { m with locked := false }) := by
  unfold Mutex.Unlock
  rw [ht]
  refine ⟨?_, ?_, ?_, ?_, ?_⟩
  · intro hl
    simp [hl]
  · intro hl e he
    simp [hl, Thread.runOk, hopen, he]
  · intro hl he hr
    simp [hl, Thread.runOk, hopen, he, hr]
  · intro hl he hr
    simp [hl, Thread.runOk, hopen, he, hr]
  · intro m₂ h
    cases hl : m.locked with
    | false =>
      rw [hl] at h
      simp at h
    | true =>
      rw [hl] at h
      simp only [Thread.runOk, hopen, if_true, if_pos] at h
      cases he : r.err with
      | some e =>
        rw [he] at h
        simp at h
      | none =>
        rw [he] at h
        cases hr : r.released with
        | false =>
          rw [hr] at h
          simp at h
        | true =>
          rw [hr] at h
          simp only [if_true] at h
          cases h
          exact ⟨rfl, rfl, rfl, rfl⟩

/-- C6 witness. -/
theorem c6_unlock_witness :
    Mutex.Unlock { name := "", thread := some { cmdsOpen := true }, handle := 1, locked := true }
        { released := true, err := none }
      = .ok { name := "", thread := some { cmdsOpen := true }, handle := 1, locked := false } :=
  (c6_unlock { name := "", thread := some { cmdsOpen := true }, handle := 1, locked := true }
    { cmdsOpen := true } { released := true, err := none } rfl rfl).2.2.2.1 rfl rfl rfl

/-- C7: on an open mutex, `TryLock` returns `true` and sets
`locked = true` when the zero-wait acquire reports immediate acquisition
(signaled), and returns `false` with the state entirely unchanged when the
wait reports the timed-out outcome. -/
theorem c7_trylock (m : Mutex) (t : Thread)
    (ht : m.thread = some t) (hopen : t.cmdsOpen = true) :
    Mutex.TryLock m .signaled = .ok (true, { m with locked := true }) ∧
    Mutex.TryLock m .timedout = .ok (false, m) := by
  unfold Mutex.TryLock
  rw [ht]
  simp [Thread.runOk, hopen, waitForSingleObject, WaitTimeout]

/-- C7 witness. -/
theorem c7_trylock_witness :
    Mutex.TryLock { name := "n", thread := some { cmdsOpen := true }, handle := 4, locked := false }
        WaitOutcome.signaled
      = .ok (true, { name := "n", thread := some { cmdsOpen := true }, handle := 4, locked := true }) ∧
    Mutex.TryLock { name := "n", thread := some { cmdsOpen := true }, handle := 4, locked := false }
        WaitOutcome.timedout
      = .ok (false, { name := "n", thread := some { cmdsOpen := true }, handle := 4, locked := false }) :=
  c7_trylock { name := "n", thread := some { cmdsOpen := true }, handle := 4, locked := false }
    { cmdsOpen := true } rfl rfl

/-- C8: `Exists` returns `(false, nil)` exactly when the native open
reports the errno ERROR_FILE_NOT_FOUND; returns `(false, err)` with the
non-nil error for every other open failure; and on success returns
`(true, nil)` after closing the opened handle. -/
theorem c8_exists (res : OpenResult) :
    ((Exists res).found = false ∧ (Exists res).err = none ↔
      res.err = some (.errno ERROR_FILE_NOT_FOUND)) ∧
    (∀ e, res.err = some e → e ≠ .errno ERROR_FILE_NOT_FOUND →
      Exists res = { found := false, err := some e, closed := none }) ∧
    (res.err = none →
      Exists res = { found := true, err := none, closed := some res.handle }) := by
  refine ⟨?_, ?_, ?_⟩
  · constructor
    · intro hfe
      unfold Exists at hfe
      cases he : res.err with
      | none =>
        rw [he] at hfe
        simp at hfe
      | some e =>
        rw [he] at hfe
        cases e with
        | errno n =>
          by_cases hn : n = ERROR_FILE_NOT_FOUND
          · rw [hn]
          · simp [hn] at hfe
        | msg s => simp at hfe
        | wrap s e2 => simp at hfe
    · intro he
      unfold Exists
      rw [he]
      simp [ERROR_FILE_NOT_FOUND]
  · intro e he hne
    unfold Exists
    rw [he]
    cases e with
    | errno n =>
      have hn : n ≠ ERROR_FILE_NOT_FOUND := by
        intro hc
        exact hne (by rw [hc])
      simp [hn]
    | msg s => rfl
    | wrap s e2 => rfl
  · intro he
    unfold Exists
    rw [he]

/-- C8 witness. -/
theorem c8_exists_witness :
    Exists { handle := 11, err := none } =
      { found := true, err := none, closed := some 11 } :=
  (c8_exists { handle := 11, err := none }).2.2 rfl

/-- C9: every public operation preserves the state invariant `Mutex.inv`
(`locked` implies a present executor and nonzero handle; the executor and
handle are both valid or both torn down). `New` establishes it on success
(given the OS contract that a successful create returns a nonzero handle),
and `Lock`, `TryLock`, `Unlock`, and `Close` preserve it on every normal
return; `Name` performs no state change at all. -/
theorem c9_invariant :
    (∀ nm cr mu, cr.handle ≠ 0 → (New nm cr).mutex = some mu → mu.inv = true) ∧
    (∀ (m : Mutex) w m', m.inv = true → Mutex.Lock m w = .ok m' → m'.inv = true) ∧
    (∀ (m : Mutex) w b m', m.inv = true → Mutex.TryLock m w = .ok (b, m') → m'.inv = true) ∧
    (∀ (m : Mutex) r m', m.inv = true → Mutex.Unlock m r = .ok m' → m'.inv = true) ∧
    (∀ (m : Mutex) rel chErr errs m' tr, m.inv = true →
      Mutex.Close m rel chErr = .ok (errs, m', tr) → m'.inv = true) ∧
    (∀ m : Mutex, Mutex.Name m = m.name) := by
  refine ⟨?_, ?_, ?_, ?_, ?_, fun _ => rfl⟩
  · intro nm cr mu hh hmu
    unfold New at hmu
    cases he : cr.err with
    | some e =>
      rw [he] at hmu
      simp at hmu
    | none =>
      rw [he] at hmu
      simp only [Option.some.injEq] at hmu
      rw [← hmu]
      simp [Mutex.inv, Thread.new, hh]
  · intro m w m' hinv h
    unfold Mutex.Lock at h
    split at h
    · cases h
    · next t hm =>
      split at h
      · split at h
        · cases h
        · cases h
          unfold Mutex.inv at hinv ⊢
          rw [hm] at hinv
          simp_all [hm]
      · cases h
  · intro m w b m' hinv h
    unfold Mutex.TryLock at h
    split at h
    · cases h
    · next t hm =>
      split at h
      · split at h
        · cases h
        · split at h
          · cases h
            exact hinv
          · cases h
            unfold Mutex.inv at hinv ⊢
            rw [hm] at hinv
            simp_all [hm]
      · cases h
  · intro m r m' hinv h
    unfold Mutex.Unlock at h
    split at h
    · split at h
      · cases h
      · next t hm =>
        split at h
        · split at h
          · cases h
          · split at h
            · cases h
              unfold Mutex.inv at hinv ⊢
              rw [hm] at hinv
              simp_all [hm]
            · cases h
        · cases h
    · cases h
  · intro m rel chErr errs m' tr hinv h
    unfold Mutex.Close at h
    split at h
    · next hm =>
      cases h
      exact hinv
    · next t hm =>
      split at h
      · split at h
        · cases h
          simp [Mutex.inv]
        · cases h
      · cases h
        rename_i hh
        unfold Mutex.inv at hinv ⊢
        rw [hm] at hinv
        simp only [Bool.and_eq_true] at hinv
        exact absurd (by simpa using hinv.2.2) hh

/-- C9 witness. -/
theorem c9_invariant_witness :
    Mutex.inv { name := "z", thread := some { cmdsOpen := true }, handle := 9, locked := true }
      = true ∧
    Mutex.inv { name := "z", thread := none, handle := 0, locked := false } = true :=
  ⟨c9_invariant.2.1
      { name := "z", thread := some { cmdsOpen := true }, handle := 9, locked := false }
      WaitOutcome.signaled
      { name := "z", thread := some { cmdsOpen := true }, handle := 9, locked := true }
      (by decide) rfl,
    c9_invariant.2.2.2.2.1
      { name := "z", thread := some { cmdsOpen := true }, handle := 9, locked := false }
      { released := true, err := none } none none
      { name := "z", thread := none, handle := 0, locked := false }
      [NativeCall.closeHandle 9, NativeCall.threadClose] (by decide) rfl⟩

/-- C10: `Name` is a pure accessor returning exactly the name supplied to
`New` (empty for anonymous mutexes), it cannot fault (it is total on every
state), and no operation — `Lock`, `TryLock`, `Unlock`, or `Close`,
including a completed `Close` — ever changes the stored name. -/
theorem c10_name :
    (∀ nm cr mu, (New nm cr).mutex = some mu → Mutex.Name mu = nm) ∧
    (∀ (m : Mutex) w m', Mutex.Lock m w = .ok m' → Mutex.Name m' = Mutex.Name m) ∧
    (∀ (m : Mutex) w b m', Mutex.TryLock m w = .ok (b, m') → Mutex.Name m' = Mutex.Name m) ∧
    (∀ (m : Mutex) r m', Mutex.Unlock m r = .ok m' → Mutex.Name m' = Mutex.Name m) ∧
    (∀ (m : Mutex) rel chErr errs m' tr, Mutex.Close m rel chErr = .ok (errs, m', tr) →
      Mutex.Name m' = Mutex.Name m) := by
  refine ⟨?_, ?_, ?_, ?_, ?_⟩
  · intro nm cr mu hmu
    unfold New at hmu
    cases he : cr.err with
    | some e =>
      rw [he] at hmu
      simp at hmu
    | none =>
      rw [he] at hmu
      simp only [Option.some.injEq] at hmu
      rw [← hmu]
      rfl
  · intro m w m' h
    unfold Mutex.Lock at h
    split at h
    · cases h
    · split at h
      · split at h
        · cases h
        · cases h
          rfl
      · cases h
  · intro m w b m' h
    unfold Mutex.TryLock at h
    split at h
    · cases h
    · split at h
      · split at h
        · cases h
        · split at h
          · cases h
            rfl
          · cases h
            rfl
      · cases h
  · intro m r m' h
    unfold Mutex.Unlock at h
    split at h
    · split at h
      · cases h
      · split at h
        · split at h
          · cases h
          · split at h
            · cases h
              rfl
            · cases h
        · cases h
    · cases h
  · intro m rel chErr errs m' tr h
    unfold Mutex.Close at h
    split at h
    · cases h
      rfl
    · split at h
      · split at h
        · cases h
          rfl
        · cases h
      · cases h
        rfl

/-- C10 witness. -/
theorem c10_name_witness :
    Mutex.Name { name := "q", thread := some { cmdsOpen := true }, handle := 5, locked := false }
      = "q" :=
  c10_name.1 "q" { handle := 5, openedExisting := false, err := none }
    { name := "q", thread := some { cmdsOpen := true }, handle := 5, locked := false } rfl

end WinObj
